import Mathlib

/-!
Verification of the `better-next-actions` pipeline core
(`src/action-client.ts`, `src/action-error.ts`, `src/use-action.ts`).

The TypeScript source is shallowly embedded: JavaScript runtime values that can
be thrown, merged into contexts or carried as payloads are modelled by the
inductive `JsValue`; a promise that either resolves or rejects is modelled by
`Outcome`; the builder class `ActionBuilder` becomes a structure holding the
optional schema and the composed middleware producer, and its methods `input`,
`use` and `action` are translated function by function.  Values forwarded to
`console.error` are collected in a list so that the observability contract is
visible in the model.
-/

namespace BetterNextActions

/-- A JavaScript runtime value, restricted to the shapes the pipeline core
inspects.  `actionError code message digest` models an instance of the
`ActionError` class (which `instanceof ActionError` recognises); its `digest`
field models a possibly user-assigned string `digest` property (the class
itself never sets one, so values built by the constructor carry `none`).
`obj` models any other object as an association list of properties. -/
inductive JsValue : Type where
  | str (s : String)
  | num (n : Int)
  | bool (b : Bool)
  | nullV
  | undefinedV
  | obj (fields : List (String × JsValue))
  | actionError (code : Option String) (message : String) (digest : Option String)

/-- The `{ code?, message }` record (`ActionErrorProps` in the source). -/
structure ActionErrorProps : Type where
  code : Option String
  message : String
deriving Repr, DecidableEq

/-- `ActionResult<TData>` as a plain record, exactly the runtime shape
`{ data, error }` produced by the source (no algebraic tagging is imposed:
that `data`/`error` are mutually exclusive is a theorem, not a definition). -/
structure ActionResult (α : Type) : Type where
  data : Option α
  error : Option ActionErrorProps

/-- The result of awaiting a promise: it either resolves with a value or
rejects with a thrown JavaScript value. -/
inductive Outcome (α : Type) : Type where
  | ok (a : α)
  | thrown (e : JsValue)

/-- Sequencing of awaited steps: a rejection propagates, a resolution feeds
the next step.  This is the semantics of `await` inside an `async` body. -/
def Outcome.bind {α β : Type} : Outcome α → (α → Outcome β) → Outcome β
  | .ok a, f => f a
  | .thrown e, _ => .thrown e

/-- A middleware context: a plain object, i.e. named fields. -/
abbrev JsObj : Type := List (String × JsValue)

/-- Property lookup on an object modelled as an association list. -/
def getProp (fields : JsObj) (key : String) : Option JsValue :=
  match fields with
  | [] => none
  | (k, v) :: rest => if k = key then some v else getProp rest key

/-- Object spread `{...base, ...new}`: every key of `new0` overrides the same
key of `base`; keys found only in `base` survive. -/
def mergeObj (base new0 : JsObj) : JsObj :=
  base.filter (fun p => (getProp new0 p.1).isNone) ++ new0

/-- JavaScript's `String.prototype.startsWith`: an executable prefix test on
the character sequences of the two strings. -/
def jsStartsWith (s pre : String) : Bool := pre.data.isPrefixOf s.data

/-- `isNextJsInternalError` from `action-client.ts`: a thrown value is a
Next.js-internal control signal iff it is a non-null object with a string
`digest` property starting with `"NEXT_"`. -/
def isNextJsInternalError : JsValue → Bool
  | .obj fields =>
      match getProp fields "digest" with
      | some (.str d) => jsStartsWith d "NEXT_"
      | _ => false
  | .actionError _ _ (some d) => jsStartsWith d "NEXT_"
  | _ => false

/-- `error instanceof ActionError`. -/
def isActionError : JsValue → Bool
  | .actionError _ _ _ => true
  | _ => false

/-- The `ActionError` constructor (`action-error.ts`): a plain string becomes
`{ message: input, code: undefined }`; a `{ code?, message }` structure is
taken apart as given.  The constructor never sets a `digest` property. -/
def ActionError.construct : String ⊕ ActionErrorProps → JsValue
  | .inl s =>
      let normalized : ActionErrorProps := { code := none, message := s }
      .actionError normalized.code normalized.message none
  | .inr props => .actionError props.code props.message none

/-- Projection: the `code` field of a constructed/thrown `ActionError`. -/
def errCode : JsValue → Option String
  | .actionError c _ _ => c
  | _ => none

/-- Projection: the `message` field of a constructed/thrown `ActionError`. -/
def errMessage : JsValue → Option String
  | .actionError _ m _ => some m
  | _ => none

/-- An input contract (Zod schema) seen through its `safeParse` capability:
`none` models `{ success: false }`, `some d` models `{ success: true, data: d }`. -/
abbrev Schema : Type := JsValue → Option JsValue

/-- A middleware step `(ctx) => Promise<increment>`. -/
abbrev Step : Type := JsObj → Outcome JsObj

/-- A handler `(data, ctx) => Promise<TOutput>`. -/
abbrev Handler (α : Type) : Type := JsValue → JsObj → Outcome α

/-- The builder's captured configuration: the optional Zod schema and the
single composed middleware producer `() => Promise<TContext>` (deterministic
within one invocation, so represented by its awaited outcome). -/
structure ActionBuilder : Type where
  schema : Option Schema
  middleware : Outcome JsObj

/-- `ActionBuilder.input(schema)`: a new builder with the schema replaced and
the middleware carried over (`new ActionBuilder({ ...this, schema })`). -/
def ActionBuilder.input (b : ActionBuilder) (schema : Schema) : ActionBuilder :=
  { schema := some schema, middleware := b.middleware }

/-- `ActionBuilder.use(newMiddleware)`: a new builder whose producer awaits
the old chain, feeds the accumulated context to the new step, and returns
`{ ...baseCtx, ...newCtx }`. -/
def ActionBuilder.use (b : ActionBuilder) (newMiddleware : Step) : ActionBuilder :=
  { schema := b.schema
    middleware :=
      b.middleware.bind fun baseCtx =>
        (newMiddleware baseCtx).bind fun newCtx =>
          .ok (mergeObj baseCtx newCtx) }

/-- Iterated `use`, for reasoning about a whole stack of later middleware. -/
def ActionBuilder.useList (b : ActionBuilder) (steps : List Step) : ActionBuilder :=
  steps.foldl ActionBuilder.use b

/-- Step 2 of `action`'s try-block: `if (this.schema) { safeParse... }` —
a failed parse throws `new ActionError({ code: "VALIDATION_ERROR",
message: "Invalid input provided." })`; with no schema the raw payload is
passed through. -/
def validateStep (schema : Option Schema) (payload : JsValue) : Outcome JsValue :=
  match schema with
  | some s =>
      match s payload with
      | none =>
          .thrown (ActionError.construct (.inr
            { code := some "VALIDATION_ERROR", message := "Invalid input provided." }))
      | some d => .ok d
  | none => .ok payload

/-- The try-block of the function returned by `action`: run the composed
middleware chain, validate the input, then run the handler. -/
def tryBody {α : Type} (b : ActionBuilder) (handler : Handler α)
    (payload : JsValue) : Outcome α :=
  b.middleware.bind fun context =>
    (validateStep b.schema payload).bind fun validatedInput =>
      handler validatedInput context

/-- The catch-block of `action`: Next.js-internal signals are re-thrown
unmodified; an `ActionError` becomes a Failure carrying its `code`/`message`;
anything else is passed to `console.error` (collected in the second
component) and becomes the fixed `INTERNAL_SERVER_ERROR` Failure. -/
def normalizeCatch {α : Type} : Outcome α → Outcome (ActionResult α) × List JsValue
  | .ok data => (.ok { data := some data, error := none }, [])
  | .thrown e =>
      if isNextJsInternalError e then
        (.thrown e, [])
      else
        match e with
        | .actionError code message _ =>
            (.ok { data := none, error := some { code := code, message := message } }, [])
        | _ =>
            (.ok { data := none,
                   error := some { code := some "INTERNAL_SERVER_ERROR",
                                   message := "An unexpected error occurred." } }, [e])

/-- `ActionBuilder.action(handler)`: the built server action.  One invocation
on a payload yields the promise's outcome together with the list of values
forwarded to `console.error`. -/
def ActionBuilder.action {α : Type} (b : ActionBuilder) (handler : Handler α)
    (payload : JsValue) : Outcome (ActionResult α) × List JsValue :=
  normalizeCatch (tryBody b handler payload)

/-- The exported root client: `schema: undefined`,
`middleware: () => Promise.resolve({})`. -/
def actionClient : ActionBuilder :=
  { schema := none, middleware := .ok [] }

/-! ### The `useAction` hook (`src/use-action.ts`)

Only the data flow of `execute` is embedded: React's `useState`/`useTransition`
plumbing is represented by recording, in order, every state passed to
`setState`, together with flags for which callbacks fired and with the value,
if any, that escaped the async body as an uncaught throw.  The hook-level and
call-level callbacks (`options.onError` / `execOptions.onError`, etc.) always
fire together with the same state, so one flag per kind suffices. -/

/-- The runtime shape of the `error` field held in the hook state.  Its
`message` is an arbitrary JavaScript value: the catch path of `execute` stores
`(e as Error).message` without checking that it is a string, so a truthy
non-string `message` property is carried through as-is (the string annotation
in the source's `ActionErrorProps` is not enforced at runtime). -/
structure RuntimeErrorProps : Type where
  code : Option String
  message : JsValue

/-- An `ActionErrorProps` coming from a resolved `ActionResult`, seen at the
hook's runtime level (its message really is a string). -/
def toRuntimeError (p : ActionErrorProps) : RuntimeErrorProps :=
  { code := p.code, message := .str p.message }

/-- `UseActionState<TData>` from `use-action.ts`, at its runtime shape. -/
structure UseActionState (α : Type) : Type where
  isError : Bool
  error : Option RuntimeErrorProps
  data : Option α

/-- `getInitialState`: `{ isError: false, error: null, data: initial ?? null }`
(`initial : Option α` already folds `undefined`/`null` into `none`). -/
def getInitialState {α : Type} (initial : Option α) : UseActionState α :=
  { isError := false, error := none, data := initial }

/-- JavaScript truthiness, as used by `||`: `null`, `undefined`, `false`, `0`
and the empty string are falsy, every other modelled value is truthy. -/
def jsTruthy : JsValue → Bool
  | .str s => s != ""
  | .num n => n != 0
  | .bool b => b
  | .nullV => false
  | .undefinedV => false
  | .obj _ => true
  | .actionError _ _ _ => true

/-- The `TypeError` the host raises when a property of `null` or `undefined`
is read (the host-specific message text is not modelled further). -/
def typeErrorNullRead : JsValue :=
  .obj [("name", .str "TypeError"),
        ("message", .str "Cannot read properties of null or undefined")]

/-- Evaluating `(e as Error).message`: the property access itself throws a
`TypeError` when `e` is `null` or `undefined`; an `ActionError` instance
yields its message string; an object yields its `message` property (or
`undefined` when absent); any other (boxed primitive) value yields
`undefined`. -/
def getMessageProp : JsValue → Outcome JsValue
  | .nullV => .thrown typeErrorNullRead
  | .undefinedV => .thrown typeErrorNullRead
  | .actionError _ m _ => .ok (.str m)
  | .obj fields =>
      .ok (match getProp fields "message" with
           | some v => v
           | none => .undefinedV)
  | _ => .ok .undefinedV

/-- The runtime shape of the `result` local of `execute`. -/
structure RuntimeResult (α : Type) : Type where
  data : Option α
  error : Option RuntimeErrorProps

/-- What one run of `execute` did: the states passed to `setState` in order
(the last one is the state left behind), which callbacks fired, and the value,
if any, with which the async body itself rejected. -/
structure ExecuteTrace (α : Type) : Type where
  states : List (UseActionState α)
  onSuccessCalled : Bool
  onErrorCalled : Bool
  onSettledCalled : Bool
  escaped : Option JsValue

/-- Steps 3–4 of `execute`: branch on `result.error`, set the final state and
fire the error/success callbacks, then the settled callbacks. -/
def executeSettle {α : Type} (initial : Option α) (reset : Bool)
    (s1 : UseActionState α) (result : RuntimeResult α) : ExecuteTrace α :=
  match result.error with
  | some err =>
      let newData : Option α := if reset then initial else none
      let finalState : UseActionState α :=
        { isError := true, error := some err, data := newData }
      { states := [s1, finalState], onSuccessCalled := false,
        onErrorCalled := true, onSettledCalled := true, escaped := none }
  | none =>
      let finalState : UseActionState α :=
        { isError := false, error := none, data := result.data }
      { states := [s1, finalState], onSuccessCalled := true,
        onErrorCalled := false, onSettledCalled := true, escaped := none }

/-- The body of `useAction`'s `execute` for one invocation: `initial` is the
hook option, `prev` the state before the call, `reset` the `execOptions.reset`
flag, and `actionOutcome` how the awaited `action(payload)` promise ended.
The `try`/`catch` around the `await` turns a rejection into the
`UNEXPECTED_ERROR` failure result — but building that result reads
`(e as Error).message`, and when the thrown value is `null` or `undefined`
that read itself throws inside the catch block, so no further state is set, no
callback fires, and the `TypeError` escapes the async body (recorded in
`escaped`). -/
def useActionExecute {α : Type} (initial : Option α) (prev : UseActionState α)
    (reset : Bool) (actionOutcome : Outcome (ActionResult α)) : ExecuteTrace α :=
  let s1 : UseActionState α :=
    if reset then getInitialState initial
    else { prev with isError := false, error := none }
  match actionOutcome with
  | .ok r =>
      executeSettle initial reset s1
        { data := r.data, error := r.error.map toRuntimeError }
  | .thrown e =>
      match getMessageProp e with
      | .thrown te =>
          { states := [s1], onSuccessCalled := false, onErrorCalled := false,
            onSettledCalled := false, escaped := some te }
      | .ok m =>
          executeSettle initial reset s1
            { data := none,
              error := some { code := some "UNEXPECTED_ERROR",
                              message := if jsTruthy m then m
                                         else .str "An unexpected error occurred." } }

/-! ### Helper lemmas -/

theorem normalizeCatch_ok {α : Type} (d : α) :
    normalizeCatch (.ok d) = (.ok { data := some d, error := none }, []) := rfl

theorem normalizeCatch_thrown_next {α : Type} (e : JsValue)
    (h : isNextJsInternalError e = true) :
    normalizeCatch (α := α) (.thrown e) = (.thrown e, []) := by
  simp [normalizeCatch, h]

theorem normalizeCatch_thrown_actionError {α : Type} (c : Option String) (m : String)
    (dg : Option String) (h : isNextJsInternalError (.actionError c m dg) = false) :
    normalizeCatch (α := α) (.thrown (.actionError c m dg))
      = (.ok { data := none, error := some { code := c, message := m } }, []) := by
  simp [normalizeCatch, h]

theorem normalizeCatch_thrown_other {α : Type} (e : JsValue)
    (h1 : isNextJsInternalError e = false) (h2 : isActionError e = false) :
    normalizeCatch (α := α) (.thrown e)
      = (.ok { data := none,
               error := some { code := some "INTERNAL_SERVER_ERROR",
                               message := "An unexpected error occurred." } }, [e]) := by
  cases e <;> simp_all [normalizeCatch, isActionError]

theorem getProp_append (l1 l2 : JsObj) (k : String) :
    getProp (l1 ++ l2) k =
      (match getProp l1 k with
       | some v => some v
       | none => getProp l2 k) := by
  induction l1 with
  | nil => simp [getProp]
  | cons p rest ih =>
      obtain ⟨k1, v1⟩ := p
      by_cases hk : k1 = k
      · simp [getProp, hk]
      · simp [getProp, hk, ih]

theorem getProp_filter_keys (base new0 : JsObj) (k : String) :
    getProp (base.filter (fun p => (getProp new0 p.1).isNone)) k =
      (if (getProp new0 k).isNone then getProp base k else none) := by
  induction base with
  | nil => simp [getProp]
  | cons p rest ih =>
      obtain ⟨k1, v1⟩ := p
      by_cases hk : k1 = k
      · subst hk
        by_cases hp : (getProp new0 k1).isNone
        · simp [List.filter, hp, getProp, ih]
        · simp [List.filter, hp, getProp, ih]
      · by_cases hp : (getProp new0 k1).isNone
        · simp [List.filter, hp, getProp, hk, ih]
        · simp [List.filter, hp, getProp, hk, ih]

/-- Lookup in `{...base, ...new}` is right-biased: a key present in the new
increment wins, otherwise the accumulated value survives. -/
theorem getProp_mergeObj (base new0 : JsObj) (k : String) :
    getProp (mergeObj base new0) k =
      (match getProp new0 k with
       | some v => some v
       | none => getProp base k) := by
  unfold mergeObj
  rw [getProp_append, getProp_filter_keys]
  cases h : getProp new0 k with
  | some v => simp [h]
  | none => cases hb : getProp base k <;> simp [h, hb]

theorem useList_middleware_thrown (steps : List Step) (b : ActionBuilder) (v : JsValue)
    (h : b.middleware = .thrown v) : (b.useList steps).middleware = .thrown v := by
  induction steps generalizing b with
  | nil => exact h
  | cons s rest ih =>
      exact ih (b.use s) (by simp [ActionBuilder.use, h, Outcome.bind])

/-! ### Example steps, schemas and handlers used in concrete instantiations -/

/-- A middleware step contributing `{a: 1}`. -/
def stepA1 : Step := fun _ => .ok [("a", JsValue.num 1)]

/-- A middleware step contributing `{a: 2, b: 3}`. -/
def stepA2B3 : Step := fun _ => .ok [("a", JsValue.num 2), ("b", JsValue.num 3)]

/-- A middleware step rejecting with a plain (non-declared) fault. -/
def stepBoom : Step := fun _ => .thrown (JsValue.str "boom")

/-- A schema accepting exactly objects, parsing them to a fixed value. -/
def exampleSchema : Schema := fun p =>
  match p with
  | .obj _ => some (.str "parsed")
  | _ => none

/-- A handler echoing the data it received. -/
def echoHandler : Handler JsValue := fun d _ => .ok d

/-! ### Claim theorems -/

/-- C1: every invocation of a built action (any middleware stack, any optional
schema, any handler) either resolves to exactly one of the two `ActionResult`
shapes — Success `{ data, error: null }` or Failure `{ data: null, error }`,
so `data` and `error` are never both non-null and never both null — or, when
the promise rejects, the re-raised value is a Next.js-internal control signal
(declared errors and unexpected faults never escape as rejections). -/
theorem action_result_is_success_or_failure_and_only_signals_reject
    {α : Type} (b : ActionBuilder) (handler : Handler α) (payload : JsValue) :
    match (b.action handler payload).1 with
    | .ok r => (∃ d, r = { data := some d, error := none })
        ∨ (∃ err, r = { data := none, error := some err })
    | .thrown e => isNextJsInternalError e = true := by
  unfold ActionBuilder.action
  cases tryBody b handler payload with
  | ok d => simp [normalizeCatch]
  | thrown e =>
      by_cases hn : isNextJsInternalError e
      · simp [normalizeCatch, hn]
      · cases e <;> simp [normalizeCatch, hn]

/-- C2 counterexample: a handler that *returns* (rather than raises) the
host-control-signal marker makes the call resolve to a Success Result wrapping
the marker — the call is not re-raised, contradicting the claim for the
"returns" case. -/
theorem returned_marker_resolves_to_success :
    isNextJsInternalError (.obj [("digest", .str "NEXT_REDIRECT")]) = true
    ∧ actionClient.action
        (fun _ _ => Outcome.ok (JsValue.obj [("digest", JsValue.str "NEXT_REDIRECT")]))
        JsValue.undefinedV
      = (.ok { data := some (.obj [("digest", .str "NEXT_REDIRECT")]), error := none },
         []) :=
  ⟨rfl, rfl⟩

/-- C2 (amended): for every invocation of a built action, if middleware or the
handler *raises* the host-control-signal marker (a non-null object whose
string `digest` property starts with `"NEXT_"`), the action call re-raises
that value as-is and does not resolve to a Result; the hypothesis does not
exclude declared errors, so the signal check takes priority over the
declared-error and unexpected-fault classifications. -/
theorem raised_next_signal_is_reraised_as_is
    {α : Type} (b : ActionBuilder) (handler : Handler α) (payload e : JsValue)
    (h1 : tryBody b handler payload = .thrown e)
    (h2 : isNextJsInternalError e = true) :
    b.action handler payload = (.thrown e, []) := by
  unfold ActionBuilder.action
  rw [h1]
  exact normalizeCatch_thrown_next e h2

/-- Witness for the amended C2, at a declared error carrying a `"NEXT_"`
digest: the signal check wins over the `instanceof ActionError` check. -/
theorem raised_next_signal_is_reraised_as_is_witness :
    tryBody (α := JsValue) actionClient
        (fun _ _ => Outcome.thrown (JsValue.actionError (some "X") "m" (some "NEXT_REDIRECT")))
        JsValue.undefinedV
      = .thrown (.actionError (some "X") "m" (some "NEXT_REDIRECT"))
    ∧ isNextJsInternalError (.actionError (some "X") "m" (some "NEXT_REDIRECT")) = true
    ∧ ActionBuilder.action (α := JsValue) actionClient
        (fun _ _ => Outcome.thrown (JsValue.actionError (some "X") "m" (some "NEXT_REDIRECT")))
        JsValue.undefinedV
      = (.thrown (.actionError (some "X") "m" (some "NEXT_REDIRECT")), []) :=
  ⟨rfl, rfl,
    raised_next_signal_is_reraised_as_is actionClient
      (fun _ _ => Outcome.thrown (JsValue.actionError (some "X") "m" (some "NEXT_REDIRECT")))
      JsValue.undefinedV
      (.actionError (some "X") "m" (some "NEXT_REDIRECT")) rfl rfl⟩

/-- C3: if a middleware step throws a declared `ActionError` carrying
`{code, message}`, the call resolves to exactly the Failure with that code and
message verbatim, independently of every later middleware step, of any
attached schema, and of the handler (none of them can affect the outcome),
and nothing is forwarded to `console.error`. -/
theorem middleware_declared_error_short_circuits
    {α : Type} (base : ActionBuilder) (m : Step) (c0 : JsObj)
    (code : Option String) (msg : String) (rest : List Step) (s : Option Schema)
    (handler : Handler α) (payload : JsValue)
    (hbase : base.middleware = .ok c0)
    (hm : m c0 = .thrown (.actionError code msg none)) :
    ActionBuilder.action
        { schema := s, middleware := ((base.use m).useList rest).middleware }
        handler payload
      = (.ok { data := none, error := some { code := code, message := msg } }, []) := by
  have hthrow : ((base.use m).useList rest).middleware
      = .thrown (.actionError code msg none) := by
    apply useList_middleware_thrown
    simp [ActionBuilder.use, hbase, hm, Outcome.bind]
  have hbody : tryBody
      { schema := s, middleware := ((base.use m).useList rest).middleware }
      handler payload = .thrown (.actionError code msg none) := by
    unfold tryBody
    simp [hthrow, Outcome.bind]
  unfold ActionBuilder.action
  rw [hbody]
  exact normalizeCatch_thrown_actionError code msg none rfl

/-- Witness for C3: an `UNAUTHORIZED` declared error thrown by the first
middleware step, with a later middleware step, an always-rejecting schema and
a handler all attached — the call still resolves to exactly that Failure. -/
theorem middleware_declared_error_short_circuits_witness :
    actionClient.middleware = .ok []
    ∧ ((fun _ =>
         Outcome.thrown (JsValue.actionError (some "UNAUTHORIZED") "Not logged in." none) : Step)) []
      = .thrown (.actionError (some "UNAUTHORIZED") "Not logged in." none)
    ∧ ActionBuilder.action (α := JsValue)
        { schema := some (fun _ => none),
          middleware :=
            ((actionClient.use (fun _ =>
                Outcome.thrown (JsValue.actionError (some "UNAUTHORIZED") "Not logged in." none))).useList
              [fun _ => Outcome.ok [("later", JsValue.num 1)]]).middleware }
        (fun _ _ => Outcome.ok (JsValue.str "handler ran")) JsValue.undefinedV
      = (.ok { data := none,
               error := some { code := some "UNAUTHORIZED", message := "Not logged in." } },
         []) :=
  ⟨rfl, rfl,
    middleware_declared_error_short_circuits actionClient
      (fun _ => Outcome.thrown (JsValue.actionError (some "UNAUTHORIZED") "Not logged in." none))
      [] (some "UNAUTHORIZED") "Not logged in."
      [fun _ => Outcome.ok [("later", JsValue.num 1)]] (some (fun _ => none))
      (fun _ _ => Outcome.ok (JsValue.str "handler ran")) JsValue.undefinedV rfl rfl⟩

/-- C4: middleware steps run strictly in attachment order — (a) once the
earlier step resolves with an increment, the later step is applied to the
right-biased merge of all earlier contributions as its sole input, and the
chain result merges its increment on top; (b) if the earlier step rejects, the
later step never influences the chain; (c) the merge is right-biased on key
collision; (d) with `[m1, m2]` contributing `{a: 1}` then `{a: 2, b: 3}`, the
handler observes context `{a: 2, b: 3}`. -/
theorem middleware_order_and_right_biased_merge
    (base : ActionBuilder) (m1 m2 : Step) (c0 i1 : JsObj) (v : JsValue) (k : String) :
    (base.middleware = .ok c0 → m1 c0 = .ok i1 →
      ((base.use m1).use m2).middleware
        = (m2 (mergeObj c0 i1)).bind (fun i2 => .ok (mergeObj (mergeObj c0 i1) i2)))
    ∧ (base.middleware = .ok c0 → m1 c0 = .thrown v →
        ((base.use m1).use m2).middleware = .thrown v)
    ∧ getProp (mergeObj c0 i1) k
        = (match getProp i1 k with
           | some w => some w
           | none => getProp c0 k)
    ∧ ActionBuilder.action (α := JsObj)
        ((actionClient.use stepA1).use stepA2B3)
        (fun _ ctx => Outcome.ok ctx) JsValue.undefinedV
      = (.ok { data := some [("a", JsValue.num 2), ("b", JsValue.num 3)], error := none },
         []) := by
  refine ⟨?_, ?_, getProp_mergeObj c0 i1 k, rfl⟩
  · intro hb hm1
    simp [ActionBuilder.use, hb, hm1, Outcome.bind]
  · intro hb hm1
    simp [ActionBuilder.use, hb, hm1, Outcome.bind]

/-- Witness for C4, discharging part (a) at `m1 = stepA1`, `m2 = stepA2B3`
over the root client, and part (b) at a rejecting first step. -/
theorem middleware_order_and_right_biased_merge_witness :
    actionClient.middleware = .ok []
    ∧ stepA1 [] = .ok [("a", JsValue.num 1)]
    ∧ ((actionClient.use stepA1).use stepA2B3).middleware
        = (stepA2B3 (mergeObj [] [("a", JsValue.num 1)])).bind
            (fun i2 => .ok (mergeObj (mergeObj [] [("a", JsValue.num 1)]) i2))
    ∧ stepBoom [] = .thrown (.str "boom")
    ∧ ((actionClient.use stepBoom).use stepA2B3).middleware = .thrown (.str "boom") :=
  ⟨rfl, rfl,
   (middleware_order_and_right_biased_merge actionClient stepA1 stepA2B3 []
      [("a", JsValue.num 1)] (JsValue.str "boom") "a").1 rfl rfl,
   rfl,
   (middleware_order_and_right_biased_merge actionClient stepBoom stepA2B3 []
      [] (JsValue.str "boom") "a").2.1 rfl rfl⟩

/-- C5: with an attached contract, (a) a payload the contract rejects makes
the call resolve — middleware having already run — to exactly
`{data: null, error: {code: "VALIDATION_ERROR", message: "Invalid input
provided."}}`, with the handler unable to influence the outcome and no issue
details echoed; (b) a payload the contract accepts hands the handler the
parsed value; (c) with no contract the handler receives the raw payload
unchanged. -/
theorem schema_validation_gates_handler
    {α : Type} (b : ActionBuilder) (s : Schema) (c : JsObj) (v : JsValue)
    (handler : Handler α) (payload : JsValue) :
    (b.schema = some s → b.middleware = .ok c → s payload = none →
      b.action handler payload
        = (.ok { data := none,
                 error := some { code := some "VALIDATION_ERROR",
                                 message := "Invalid input provided." } }, []))
    ∧ (b.schema = some s → b.middleware = .ok c → s payload = some v →
        b.action handler payload = normalizeCatch (handler v c))
    ∧ (b.schema = none → b.middleware = .ok c →
        b.action handler payload = normalizeCatch (handler payload c)) := by
  refine ⟨?_, ?_, ?_⟩
  · intro hs hm hp
    unfold ActionBuilder.action tryBody
    simp [hs, hm, hp, validateStep, Outcome.bind, ActionError.construct,
      normalizeCatch, isNextJsInternalError]
  · intro hs hm hp
    unfold ActionBuilder.action tryBody
    simp [hs, hm, hp, validateStep, Outcome.bind]
  · intro hs hm
    unfold ActionBuilder.action tryBody
    simp [hs, hm, validateStep, Outcome.bind]

/-- Witness for C5: `exampleSchema` rejects a number and accepts an object;
the same handler is wired through `actionClient.input exampleSchema`, and the
no-contract part is discharged on the bare `actionClient`. -/
theorem schema_validation_gates_handler_witness :
    (actionClient.input exampleSchema).schema = some exampleSchema
    ∧ (actionClient.input exampleSchema).middleware = .ok []
    ∧ exampleSchema (.num 0) = none
    ∧ (actionClient.input exampleSchema).action echoHandler (.num 0)
        = (.ok { data := none,
                 error := some { code := some "VALIDATION_ERROR",
                                 message := "Invalid input provided." } }, [])
    ∧ exampleSchema (.obj []) = some (.str "parsed")
    ∧ (actionClient.input exampleSchema).action echoHandler (.obj [])
        = normalizeCatch (echoHandler (.str "parsed") [])
    ∧ actionClient.schema = none
    ∧ actionClient.action echoHandler (.num 0)
        = normalizeCatch (echoHandler (.num 0) []) :=
  ⟨rfl, rfl, rfl,
   (schema_validation_gates_handler (actionClient.input exampleSchema) exampleSchema []
      (.str "parsed") echoHandler (.num 0)).1 rfl rfl rfl,
   rfl,
   (schema_validation_gates_handler (actionClient.input exampleSchema) exampleSchema []
      (.str "parsed") echoHandler (.obj [])).2.1 rfl rfl rfl,
   rfl,
   (schema_validation_gates_handler actionClient exampleSchema [] (.str "parsed")
      echoHandler (.num 0)).2.2 rfl rfl⟩

/-- C6: any fault that is neither a Next.js-internal signal nor an
`ActionError` makes the call resolve to the fixed
`INTERNAL_SERVER_ERROR` Failure with the fixed generic message; the original
value is forwarded to `console.error` (the second component) and the Result
carries only the fixed error, never the fault. -/
theorem unexpected_fault_becomes_internal_error
    {α : Type} (b : ActionBuilder) (handler : Handler α) (payload e : JsValue)
    (h1 : tryBody b handler payload = .thrown e)
    (h2 : isNextJsInternalError e = false)
    (h3 : isActionError e = false) :
    b.action handler payload
      = (.ok { data := none,
               error := some { code := some "INTERNAL_SERVER_ERROR",
                               message := "An unexpected error occurred." } }, [e]) := by
  unfold ActionBuilder.action
  rw [h1]
  exact normalizeCatch_thrown_other e h2 h3

/-- Witness for C6: a handler throwing the plain string `"boom"`. -/
theorem unexpected_fault_becomes_internal_error_witness :
    tryBody (α := JsValue) actionClient (fun _ _ => Outcome.thrown (JsValue.str "boom"))
        JsValue.undefinedV = .thrown (.str "boom")
    ∧ isNextJsInternalError (.str "boom") = false
    ∧ isActionError (.str "boom") = false
    ∧ ActionBuilder.action (α := JsValue) actionClient
        (fun _ _ => Outcome.thrown (JsValue.str "boom")) JsValue.undefinedV
      = (.ok { data := none,
               error := some { code := some "INTERNAL_SERVER_ERROR",
                               message := "An unexpected error occurred." } },
         [.str "boom"]) :=
  ⟨rfl, rfl, rfl,
   unexpected_fault_becomes_internal_error actionClient
     (fun _ _ => Outcome.thrown (JsValue.str "boom")) JsValue.undefinedV
     (.str "boom") rfl rfl rfl⟩

/-- C7: `input` and `use` never mutate the receiver: each returns a new
builder made of the old builder's captured fields plus the one increment
(`new ActionBuilder({ ...this, ... })`), so a pipeline derived from a shared
intermediate builder is a function of that builder's two fields and its own
additions alone — extending or building from the intermediate builder cannot
alter any previously derived pipeline, whose behaviour is pinned by those
fields. -/
theorem builder_extension_is_immutable
    {α : Type} (b : ActionBuilder) (s : Schema) (m m1 : Step)
    (h1 : Handler α) (p : JsValue) :
    (b.input s).schema = some s
    ∧ (b.input s).middleware = b.middleware
    ∧ (b.use m).schema = b.schema
    ∧ (b.use m).middleware
        = b.middleware.bind (fun c => (m c).bind fun i => .ok (mergeObj c i))
    ∧ (b.use m1).action h1 p
        = ActionBuilder.action
            { schema := b.schema,
              middleware :=
                b.middleware.bind (fun c => (m1 c).bind fun i => .ok (mergeObj c i)) }
            h1 p :=
  ⟨rfl, rfl, rfl, rfl, rfl⟩

/-- C8: the `ActionError` constructor normalizes both accepted input forms to
`{code?, message}`: a plain string `s` yields message `s` and no code; a
`{code?, message}` structure yields exactly that code and message. -/
theorem action_error_constructor_normalizes (s : String) (props : ActionErrorProps) :
    errMessage (ActionError.construct (.inl s)) = some s
    ∧ errCode (ActionError.construct (.inl s)) = none
    ∧ errMessage (ActionError.construct (.inr props)) = some props.message
    ∧ errCode (ActionError.construct (.inr props)) = props.code
    ∧ isActionError (ActionError.construct (.inl s)) = true
    ∧ isActionError (ActionError.construct (.inr props)) = true :=
  ⟨rfl, rfl, rfl, rfl, rfl, rfl⟩

/-- C9: attaching an input contract twice is last-write-wins replacement: the
builder obtained from `b.input s1 |> input s2` is the very builder
`b.input s2` — `s1` plays no role in validation or in what the handler
receives, and the middleware chain is carried over unchanged. -/
theorem input_twice_is_last_write_wins
    {α : Type} (b : ActionBuilder) (s1 s2 : Schema) (handler : Handler α) (p : JsValue) :
    (b.input s1).input s2 = b.input s2
    ∧ ((b.input s1).input s2).schema = some s2
    ∧ ((b.input s1).input s2).middleware = b.middleware
    ∧ ((b.input s1).input s2).action handler p = (b.input s2).action handler p :=
  ⟨rfl, rfl, rfl, rfl⟩

/-- C10 counterexample: when the action's promise rejects with `null`, reading
`(e as Error).message` inside the catch block itself throws a `TypeError`:
the failure state is never set, neither `onError` nor `onSettled` fires, and
the rejection escapes the `execute` body — contradicting the claim that every
rejection is caught and settled. -/
theorem null_rejection_escapes_execute :
    useActionExecute (α := JsValue) none (getInitialState none) false (.thrown .nullV)
      = { states := [{ isError := false, error := none, data := none }],
          onSuccessCalled := false, onErrorCalled := false, onSettledCalled := false,
          escaped := some typeErrorNullRead } := rfl

/-- C10 (amended): if the awaited action promise rejects with a value on which
reading the `message` property succeeds (any value other than `null` /
`undefined`, including a re-raised Next.js control signal), `execute` catches
the rejection and settles: final state `{isError: true, error: {code:
"UNEXPECTED_ERROR", message: the thrown value's truthy message property
carried verbatim, else the generic message}, data: initial-or-null}`, with
`onError` and `onSettled` fired and nothing escaping.  If instead the
property read throws (`null`/`undefined` rejection), no failure state is set,
no callback fires, and that `TypeError` escapes the async body. -/
theorem execute_settles_rejection_unless_message_read_throws
    {α : Type} (initial : Option α) (prev : UseActionState α) (reset : Bool)
    (e m te : JsValue) :
    (getMessageProp e = .ok m →
      useActionExecute initial prev reset (.thrown e)
        = { states := [if reset then getInitialState initial
                       else { prev with isError := false, error := none },
                       { isError := true,
                         error := some { code := some "UNEXPECTED_ERROR",
                                         message := if jsTruthy m then m
                                                    else .str "An unexpected error occurred." },
                         data := if reset then initial else none }],
            onSuccessCalled := false, onErrorCalled := true, onSettledCalled := true,
            escaped := none })
    ∧ (getMessageProp e = .thrown te →
        useActionExecute initial prev reset (.thrown e)
          = { states := [if reset then getInitialState initial
                         else { prev with isError := false, error := none }],
              onSuccessCalled := false, onErrorCalled := false, onSettledCalled := false,
              escaped := some te }) := by
  constructor
  · intro h
    simp only [useActionExecute, executeSettle, h]
  · intro h
    simp only [useActionExecute, executeSettle, h]

/-- Witness for the amended C10: a rejection with `{message: 5}` settles to
the failure state carrying the non-string message value `5` verbatim, and a
rejection with `undefined` escapes as the `TypeError` with no callback. -/
theorem execute_settles_rejection_unless_message_read_throws_witness :
    getMessageProp (.obj [("message", JsValue.num 5)]) = .ok (.num 5)
    ∧ useActionExecute (α := JsValue) none (getInitialState none) false
        (.thrown (.obj [("message", JsValue.num 5)]))
      = { states := [{ isError := false, error := none, data := none },
                     { isError := true,
                       error := some { code := some "UNEXPECTED_ERROR",
                                       message := .num 5 },
                       data := none }],
          onSuccessCalled := false, onErrorCalled := true, onSettledCalled := true,
          escaped := none }
    ∧ getMessageProp JsValue.undefinedV = .thrown typeErrorNullRead
    ∧ useActionExecute (α := JsValue) none (getInitialState none) false (.thrown .undefinedV)
      = { states := [{ isError := false, error := none, data := none }],
          onSuccessCalled := false, onErrorCalled := false, onSettledCalled := false,
          escaped := some typeErrorNullRead } :=
  ⟨rfl,
   (execute_settles_rejection_unless_message_read_throws (α := JsValue) none
      (getInitialState none) false (.obj [("message", JsValue.num 5)]) (.num 5)
      typeErrorNullRead).1 rfl,
   rfl,
   (execute_settles_rejection_unless_message_read_throws (α := JsValue) none
      (getInitialState none) false JsValue.undefinedV (.num 5)
      typeErrorNullRead).2 rfl⟩

end BetterNextActions
